import Mathlib

/-!
Verification development for the margin-protocol risk engine of
laminar-chain.  The repository ships the module's unit tests
(`modules/margin-protocol/src/tests.rs`) but not the module body itself,
so the computational core is modelled from the specification, with every
numeric convention pinned by the expected values the unit tests assert.
Fixed-point quantities (`Fixed128`, prices, ratios) are modelled as exact
rationals; `Balance` (`u128`, measured in 10^-18 parts) is modelled as ℕ.
-/

/-- Modelled from the spec: enumerated token/fiat identifier (the module
`primitives::CurrencyId` is not in the sources).  Only the three
currencies the unit tests use are needed. -/
inductive CurrencyId
  | AUSD
  | FEUR
  | FJPY
deriving DecidableEq, Repr

/-- Modelled from the spec: ordered pair of currencies; a quoted price of
the pair is denominated in `base` units per one `quote` unit (the
convention the unit-test data pins: EUR/JPY has base FJPY, quote FEUR). -/
structure TradingPair where
  base : CurrencyId
  quote : CurrencyId
deriving DecidableEq, Repr

/-- Modelled from the spec: leverage is a direction tag (long/short)
together with a fixed multiplier; downstream formulas only consult the
direction. -/
structure Leverage where
  isLong : Bool
  multiplier : ℕ
deriving DecidableEq, Repr

/-- Modelled from the spec: the error kinds of the missing module body
(`NoPrice`, arithmetic bound errors, and the four safety rejections). -/
inductive Err
  | NoPrice
  | NumOutOfBound
  | TraderWouldBeUnsafe
  | UnsafeTrader
  | PoolWouldBeUnsafe
  | UnsafePool
deriving DecidableEq, Repr

/-- Modelled from the spec: a risk threshold is a pair of fractions
`(margin_call, stop_out)` (the tests build it from two `Permill`s). -/
structure RiskThreshold where
  margin_call : ℚ
  stop_out : ℚ
deriving DecidableEq, Repr

/-- Modelled from the spec: the `Position` record of the missing module
body.  Fixed-point fields are exact rationals; `open_margin` is a
`Balance` (u128 in 10^-18 parts), modelled as ℕ. -/
structure Position where
  owner : ℕ
  pool : ℕ
  pair : TradingPair
  leverage : Leverage
  leveraged_held : ℚ
  leveraged_debits : ℚ
  leveraged_held_in_usd : ℚ
  open_accumulated_swap_rate : ℚ
  open_margin : ℕ
deriving DecidableEq, Repr

/-- Modelled from the spec: the ambient read-only state one evaluation of
the core consults — oracle USD prices, the uniform spread fraction, the
per-pair accumulated swap-rate index, balances, the position indices by
trader and by pool, and pool liquidity (a `Balance` in 10^-18 parts). -/
structure Env where
  usdPrice : CurrencyId → Option ℚ
  spread : ℚ
  accRate : TradingPair → ℚ
  balances : ℕ → ℕ
  positionsByTrader : ℕ → List Position
  positionsByPool : ℕ → List Position
  liquidity : ℕ → ℕ

/-- Modelled from the spec: the maximum representable fixed-point ratio,
`Fixed128::max_value()` = (2^127 - 1) parts at 10^18 precision. -/
def fixed128Max : ℚ := (2 ^ 127 - 1) / 10 ^ 18

/-- Modelled from the spec: a `Balance` (u128 in 10^-18 parts) read as a
fixed-point value. -/
def balanceValue (b : ℕ) : ℚ := (b : ℚ) / 10 ^ 18

/-- Modelled from the spec: the mid price of a trading pair, resolved
from the oracle's USD prices as `usd(quote) / usd(base)`; `NoPrice` when
either leg is unavailable. -/
def pairPrice (e : Env) (pair : TradingPair) : Except Err ℚ :=
  match e.usdPrice pair.quote, e.usdPrice pair.base with
  | some qp, some bp => Except.ok (qp / bp)
  | _, _ => Except.error Err.NoPrice

/-- Modelled from the spec: the price a position could close at — the
spread side opposite to the opening side, so a long closes at the bid
`mid * (1 - spread)` and a short at the ask `mid * (1 + spread)` (the
side pinned by the EUR/JPY unit-test values). -/
def closingPrice (e : Env) (pos : Position) : Except Err ℚ :=
  match pairPrice e pos.pair with
  | Except.error err => Except.error err
  | Except.ok mid =>
      Except.ok (if pos.leverage.isLong then mid * (1 - e.spread) else mid * (1 + e.spread))

/-- Modelled from the spec: unrealized P&L of one position.  The open
price is `|leveraged_debits / leveraged_held|`; the P&L in the pair's
base currency is `leveraged_held * (closing - open)` (uniform signed
arithmetic, direction carried by the sign of `leveraged_held`), converted
to the reference currency at the base currency's USD price. -/
def unrealizedPlOfPosition (e : Env) (pos : Position) : Except Err ℚ :=
  match closingPrice e pos, e.usdPrice pos.pair.base with
  | Except.error err, _ => Except.error err
  | Except.ok _, none => Except.error Err.NoPrice
  | Except.ok curr, some basePrice =>
      Except.ok (pos.leveraged_held * (curr - |pos.leveraged_debits / pos.leveraged_held|) * basePrice)

/-- Modelled from the spec: fail-fast sum of `unrealizedPlOfPosition`
over a position list — the first error aborts the whole aggregate. -/
def unrealizedPlOfPositions (e : Env) : List Position → Except Err ℚ
  | [] => Except.ok 0
  | p :: ps =>
    match unrealizedPlOfPosition e p, unrealizedPlOfPositions e ps with
    | Except.error err, _ => Except.error err
    | _, Except.error err => Except.error err
    | Except.ok v, Except.ok rest => Except.ok (v + rest)

/-- Modelled from the spec: unrealized P&L of a trader, summed fail-fast
over the trader's position index. -/
def unrealizedPlOfTrader (e : Env) (who : ℕ) : Except Err ℚ :=
  unrealizedPlOfPositions e (e.positionsByTrader who)

/-- Modelled from the spec: accrued swap of one position — the pair's
current accumulated index minus the open-time snapshot, times the
position's absolute held amount (the absolute value is pinned by the
unit test in which a short position accrues a positive amount when the
index exceeds its snapshot). -/
def accumulatedSwapRateOfPosition (e : Env) (pos : Position) : ℚ :=
  (e.accRate pos.pair - pos.open_accumulated_swap_rate) * |pos.leveraged_held|

/-- Modelled from the spec: accrued swap of a trader, folded over the
trader's position index. -/
def accumulatedSwapRateOfTrader (e : Env) (who : ℕ) : ℚ :=
  (e.positionsByTrader who).foldl (fun acc p => acc + accumulatedSwapRateOfPosition e p) 0

/-- Modelled from the spec: `margin_held` — the plain sum of
`open_margin` over the trader's positions, no pricing involved. -/
def marginHeld (e : Env) (who : ℕ) : ℕ :=
  ((e.positionsByTrader who).map fun p => p.open_margin).sum

/-- Modelled from the spec: `free_balance` — balance minus margin held,
clamped at zero by u128 (here ℕ) truncated subtraction. -/
def freeBalance (e : Env) (who : ℕ) : ℕ :=
  e.balances who - marginHeld e who

/-- Modelled from the spec: trader equity = balance + unrealized P&L +
accrued swap, failing fast if any position cannot be priced. -/
def equityOfTrader (e : Env) (who : ℕ) : Except Err ℚ :=
  match unrealizedPlOfTrader e who with
  | Except.error err => Except.error err
  | Except.ok pl =>
      Except.ok (balanceValue (e.balances who) + pl + accumulatedSwapRateOfTrader e who)

/-- Modelled from the spec: margin level = trader equity divided by the
total absolute reference-currency notional of the trader's positions,
the hypothetical position (if any) counted into the denominator; the
maximum representable ratio when the denominator is zero. -/
def marginLevel (e : Env) (who : ℕ) (newPos : Option Position) : Except Err ℚ :=
  match equityOfTrader e who with
  | Except.error err => Except.error err
  | Except.ok eqty =>
      let denom := ((e.positionsByTrader who ++ newPos.toList).map fun p => |p.leveraged_held_in_usd|).sum
      Except.ok (if denom = 0 then fixed128Max else eqty / denom)

/-- Modelled from the spec: fail-fast sum of unrealized P&L plus accrued
swap over a pool's positions. -/
def plAndRateOfPositions (e : Env) : List Position → Except Err ℚ
  | [] => Except.ok 0
  | p :: ps =>
    match unrealizedPlOfPosition e p, plAndRateOfPositions e ps with
    | Except.error err, _ => Except.error err
    | _, Except.error err => Except.error err
    | Except.ok v, Except.ok rest => Except.ok (v + accumulatedSwapRateOfPosition e p + rest)

/-- Modelled from the spec: pool equity = liquidity minus the aggregate
unrealized P&L and accrued swap of every position attached to the pool
(the pool takes the opposite side of every trader position). -/
def equityOfPool (e : Env) (pool : ℕ) : Except Err ℚ :=
  match plAndRateOfPositions e (e.positionsByPool pool) with
  | Except.error err => Except.error err
  | Except.ok s => Except.ok (balanceValue (e.liquidity pool) - s)

/-- Modelled from the spec: the pool's absolute net directional exposure
and its longest leg.  Over the pool's positions (the hypothetical one
included) in reference-currency notional: the net is the absolute signed
sum, the longest leg is the larger of the positive-side sum and the
absolute non-positive-side sum — the denominators of ENP and ELL that
the `enp_and_ell` unit tests pin. -/
def netPositionAndLongestLeg (e : Env) (pool : ℕ) (newPos : Option Position) : ℚ × ℚ :=
  let ps := e.positionsByPool pool ++ newPos.toList
  let net := (ps.map fun p => p.leveraged_held_in_usd).sum
  let positiveLeg :=
    ((ps.filter fun p => decide (0 < p.leveraged_held_in_usd)).map fun p => p.leveraged_held_in_usd).sum
  let nonPositiveLeg :=
    ((ps.filter fun p => decide (¬ 0 < p.leveraged_held_in_usd)).map fun p => p.leveraged_held_in_usd).sum
  (|net|, max positiveLeg |nonPositiveLeg|)

/-- Modelled from the spec: the two pool solvency measures — ENP is pool
equity over absolute net exposure, ELL is pool equity over the longest
leg (hypothetical position included in both denominators only); a zero
denominator yields the maximum representable ratio. -/
def enpAndEll (e : Env) (pool : ℕ) (newPos : Option Position) : Except Err (ℚ × ℚ) :=
  match equityOfPool e pool with
  | Except.error err => Except.error err
  | Except.ok eqty =>
      let nl := netPositionAndLongestLeg e pool newPos
      Except.ok
        (if nl.1 = 0 then fixed128Max else eqty / nl.1,
         if nl.2 = 0 then fixed128Max else eqty / nl.2)

/-- Modelled from the spec: the trader safety gate — reject when the
margin level (with the hypothetical position when supplied) is not
strictly above the configured `margin_call` fraction, with the error
kind chosen by whether a hypothetical position was considered. -/
def ensureTraderSafe (e : Env) (thr : RiskThreshold) (who : ℕ) (newPos : Option Position) :
    Except Err Unit :=
  match marginLevel e who newPos with
  | Except.error err => Except.error err
  | Except.ok ml =>
      if ml ≤ thr.margin_call then
        Except.error (if newPos.isSome then Err.TraderWouldBeUnsafe else Err.UnsafeTrader)
      else Except.ok ()

/-- Modelled from the spec: the pool safety gate — reject when either
ENP or ELL is not strictly above its own configured `margin_call`
fraction, with the error kind chosen by whether a hypothetical position
was considered. -/
def ensurePoolSafe (e : Env) (enpThr ellThr : RiskThreshold) (pool : ℕ) (newPos : Option Position) :
    Except Err Unit :=
  match enpAndEll e pool newPos with
  | Except.error err => Except.error err
  | Except.ok r =>
      if r.1 ≤ enpThr.margin_call ∨ r.2 ≤ ellThr.margin_call then
        Except.error (if newPos.isSome then Err.PoolWouldBeUnsafe else Err.UnsafePool)
      else Except.ok ()

/-! Concrete data of the unit-test scenarios. -/

/-- The EUR/JPY trading pair of the unit tests (base FJPY, quote FEUR). -/
def EUR_JPY_PAIR : TradingPair := { base := CurrencyId.FJPY, quote := CurrencyId.FEUR }

/-- The EUR/USD trading pair of the unit tests (base AUSD, quote FEUR). -/
def EUR_USD_PAIR : TradingPair := { base := CurrencyId.AUSD, quote := CurrencyId.FEUR }

/-- The `eur_jpy_long` fixture: 100,000 long at leveraged cost
-14,104,090 JPY. -/
def eurJpyLong : Position :=
  { owner := 0, pool := 0, pair := EUR_JPY_PAIR
    leverage := { isLong := true, multiplier := 20 }
    leveraged_held := 100000
    leveraged_debits := -14104090
    leveraged_held_in_usd := -13181393 / 100
    open_accumulated_swap_rate := 1
    open_margin := 6591 * 10 ^ 16 }

/-- The `eur_jpy_short` fixture: 100,000 short at leveraged proceeds
+14,175,810 JPY. -/
def eurJpyShort : Position :=
  { owner := 0, pool := 0, pair := EUR_JPY_PAIR
    leverage := { isLong := false, multiplier := 20 }
    leveraged_held := -100000
    leveraged_debits := 14175810
    leveraged_held_in_usd := 13373406 / 100
    open_accumulated_swap_rate := 1
    open_margin := 6687 * 10 ^ 16 }

/-- The oracle of the EUR/JPY tests: USD/JPY = 110 and EUR/JPY = 140,
i.e. FJPY at 1/110 USD and FEUR at 140/110 USD. -/
def jpyEnv : Env :=
  { usdPrice := fun c =>
      match c with
      | CurrencyId.AUSD => some 1
      | CurrencyId.FEUR => some (14 / 11)
      | CurrencyId.FJPY => some (1 / 110)
    spread := 1 / 1000
    accRate := fun _ => 1
    balances := fun _ => 0
    positionsByTrader := fun _ => []
    positionsByPool := fun _ => []
    liquidity := fun _ => 0 }

/-- The `eur_usd_long_1` fixture. -/
def eurUsdLong1 : Position :=
  { owner := 0, pool := 0, pair := EUR_USD_PAIR
    leverage := { isLong := true, multiplier := 5 }
    leveraged_held := 100000
    leveraged_debits := -12042030 / 100
    leveraged_held_in_usd := -12042030 / 100
    open_accumulated_swap_rate := 1 + 3687 / 10000000
    open_margin := 24084 * 10 ^ 16 }

/-- The `eur_usd_long_2` fixture. -/
def eurUsdLong2 : Position :=
  { owner := 0, pool := 0, pair := EUR_USD_PAIR
    leverage := { isLong := true, multiplier := 20 }
    leveraged_held := 100000
    leveraged_debits := -11941930 / 100
    leveraged_held_in_usd := -11941930 / 100
    open_accumulated_swap_rate := 1 + 1843 / 10000000
    open_margin := 5971 * 10 ^ 16 }

/-- The `eur_usd_short_1` fixture. -/
def eurUsdShort1 : Position :=
  { owner := 0, pool := 0, pair := EUR_USD_PAIR
    leverage := { isLong := false, multiplier := 10 }
    leveraged_held := -100000
    leveraged_debits := 11978010 / 100
    leveraged_held_in_usd := 11978010 / 100
    open_accumulated_swap_rate := 1 - 1096 / 10000000
    open_margin := 11978 * 10 ^ 16 }

/-- The `eur_usd_short_2` fixture. -/
def eurUsdShort2 : Position :=
  { owner := 0, pool := 0, pair := EUR_USD_PAIR
    leverage := { isLong := false, multiplier := 50 }
    leveraged_held := -200000
    leveraged_debits := 23736240 / 100
    leveraged_held_in_usd := 23736240 / 100
    open_accumulated_swap_rate := 1 - 365 / 10000000
    open_margin := 4747 * 10 ^ 16 }

/-- The shared scenario of the trader-equity / margin-level / pool
solvency tests: FEUR at 1.2 USD, spread 0.1%, accumulated index 1,
trader 0 holding the four EUR/USD fixtures with balance 120,000.00, the
same four positions attached to pool 0 with liquidity 100,000.00. -/
def scenarioEnv : Env :=
  { usdPrice := fun c =>
      match c with
      | CurrencyId.AUSD => some 1
      | CurrencyId.FEUR => some (6 / 5)
      | CurrencyId.FJPY => none
    spread := 1 / 1000
    accRate := fun _ => 1
    balances := fun who => if who = 0 then 12000000 * 10 ^ 16 else 0
    positionsByTrader := fun who =>
      if who = 0 then [eurUsdLong1, eurUsdLong2, eurUsdShort1, eurUsdShort2] else []
    positionsByPool := fun pool =>
      if pool = 0 then [eurUsdLong1, eurUsdLong2, eurUsdShort1, eurUsdShort2] else []
    liquidity := fun _ => 10000000 * 10 ^ 16 }

/-- A zero-spread environment with every currency priced at 1 USD, unit
balance and liquidity, no open positions: used to exercise the safety
gates and edge cases at concrete inputs. -/
def gateEnv : Env :=
  { usdPrice := fun _ => some 1
    spread := 0
    accRate := fun _ => 1
    balances := fun _ => 10 ^ 18
    positionsByTrader := fun _ => []
    positionsByPool := fun _ => []
    liquidity := fun _ => 10 ^ 18 }

/-- Folding addition of a pointwise value over a list equals the initial
accumulator plus the sum of the mapped list. -/
theorem foldl_add_eq_sum (f : Position → ℚ) (init : ℚ) (l : List Position) :
    l.foldl (fun acc p => acc + f p) init = init + (l.map f).sum := by
  induction l generalizing init with
  | nil => simp
  | cons p ps ih => simp [ih, add_assoc]

/-- Claim C1 counterexample: at the four-position pool scenario of the
unit tests, `enp_and_ell` returns ELL = 10333414/35714250 (equity over
the longest leg, 357142.50) while equity over liquidity would be
10333414/100 / 100000 — the two are different, so ELL is not
`equity_of_pool / pool_liquidity`. -/
theorem claim1_ell_counterexample :
    Except.map Prod.snd (enpAndEll scenarioEnv 0 none) = Except.ok ((10333414 : ℚ) / 35714250)
    ∧ equityOfPool scenarioEnv 0 = Except.ok ((10333414 : ℚ) / 100)
    ∧ ((10333414 : ℚ) / 35714250) ≠ ((10333414 : ℚ) / 100) / balanceValue (scenarioEnv.liquidity 0) := by
  refine ⟨?_, ?_, ?_⟩
  · norm_num [enpAndEll, equityOfPool, plAndRateOfPositions, unrealizedPlOfPosition, closingPrice,
      pairPrice, accumulatedSwapRateOfPosition, balanceValue, netPositionAndLongestLeg, scenarioEnv,
      eurUsdLong1, eurUsdLong2, eurUsdShort1, eurUsdShort2, EUR_USD_PAIR, abs_div, List.filter,
      Except.map]
  · norm_num [equityOfPool, plAndRateOfPositions, unrealizedPlOfPosition, closingPrice, pairPrice,
      accumulatedSwapRateOfPosition, balanceValue, scenarioEnv, eurUsdLong1, eurUsdLong2,
      eurUsdShort1, eurUsdShort2, EUR_USD_PAIR, abs_div]
  · norm_num [balanceValue, scenarioEnv]

/-- Claim C1 (amended): for every pool and optional hypothetical
position, whenever pool equity computes, the ELL returned by
`enp_and_ell` equals that equity divided by the pool's longest leg (the
hypothetical position included in the leg), with the maximum
representable ratio when the longest leg is zero — not equity divided by
pool liquidity. -/
theorem claim1_ell_is_equity_over_longest_leg (e : Env) (pool : ℕ) (np : Option Position) (q : ℚ)
    (h : equityOfPool e pool = Except.ok q) :
    Except.map Prod.snd (enpAndEll e pool np) =
      Except.ok (if (netPositionAndLongestLeg e pool np).2 = 0 then fixed128Max
        else q / (netPositionAndLongestLeg e pool np).2) := by
  simp [enpAndEll, h, Except.map]

/-- Claim C1 witness: the amended ELL equation instantiated at the
four-position pool scenario. -/
theorem claim1_ell_amended_witness :
    Except.map Prod.snd (enpAndEll scenarioEnv 0 none) =
      Except.ok (if (netPositionAndLongestLeg scenarioEnv 0 none).2 = 0 then fixed128Max
        else ((10333414 : ℚ) / 100) / (netPositionAndLongestLeg scenarioEnv 0 none).2) :=
  claim1_ell_is_equity_over_longest_leg scenarioEnv 0 none ((10333414 : ℚ) / 100)
    (by norm_num [equityOfPool, plAndRateOfPositions, unrealizedPlOfPosition, closingPrice,
      pairPrice, accumulatedSwapRateOfPosition, balanceValue, scenarioEnv, eurUsdLong1, eurUsdLong2,
      eurUsdShort1, eurUsdShort2, EUR_USD_PAIR, abs_div])

/-- Claim C2: whenever the margin level (with or without a hypothetical
position) computes to `ml`, `ensure_trader_safe` rejects — with
`TraderWouldBeUnsafe` when a hypothetical position was supplied and
`UnsafeTrader` otherwise — exactly when `ml` is less than or equal to
the configured `margin_call` threshold, and accepts exactly when `ml` is
strictly greater. -/
theorem claim2_trader_gate (e : Env) (thr : RiskThreshold) (who : ℕ) (np : Option Position)
    (ml : ℚ) (h : marginLevel e who np = Except.ok ml) :
    (ensureTraderSafe e thr who np =
        Except.error (match np with
          | some _ => Err.TraderWouldBeUnsafe
          | none => Err.UnsafeTrader)
      ↔ ml ≤ thr.margin_call)
    ∧ (ensureTraderSafe e thr who np = Except.ok () ↔ thr.margin_call < ml) := by
  cases np with
  | none =>
    by_cases hc : ml ≤ thr.margin_call
    · simp [ensureTraderSafe, h, hc, not_lt.mpr hc]
    · simp [ensureTraderSafe, h, hc, not_le.mp hc]
  | some p =>
    by_cases hc : ml ≤ thr.margin_call
    · simp [ensureTraderSafe, h, hc, not_lt.mpr hc]
    · simp [ensureTraderSafe, h, hc, not_le.mp hc]

/-- Claim C2 witness: the gate equivalence instantiated at a trader with
no open positions (margin level is the maximum ratio) against a 50%
threshold. -/
theorem claim2_trader_gate_witness :
    (ensureTraderSafe gateEnv ⟨1/2, 0⟩ 0 none = Except.error Err.UnsafeTrader
      ↔ fixed128Max ≤ (1/2 : ℚ))
    ∧ (ensureTraderSafe gateEnv ⟨1/2, 0⟩ 0 none = Except.ok () ↔ (1/2 : ℚ) < fixed128Max) :=
  claim2_trader_gate gateEnv ⟨1/2, 0⟩ 0 none fixed128Max
    (by norm_num [marginLevel, equityOfTrader, unrealizedPlOfTrader, unrealizedPlOfPositions,
      accumulatedSwapRateOfTrader, balanceValue, gateEnv])

/-- Claim C3: whenever the pool's solvency pair computes to
`(enp, ell)`, `ensure_pool_safe` rejects — with `PoolWouldBeUnsafe` when
a hypothetical position was supplied and `UnsafePool` otherwise —
exactly when ENP is ≤ its own threshold or ELL is ≤ its own threshold
(each independently configured), and accepts exactly when both are
strictly greater. -/
theorem claim3_pool_gate (e : Env) (enpThr ellThr : RiskThreshold) (pool : ℕ)
    (np : Option Position) (enp ell : ℚ) (h : enpAndEll e pool np = Except.ok (enp, ell)) :
    (ensurePoolSafe e enpThr ellThr pool np =
        Except.error (match np with
          | some _ => Err.PoolWouldBeUnsafe
          | none => Err.UnsafePool)
      ↔ enp ≤ enpThr.margin_call ∨ ell ≤ ellThr.margin_call)
    ∧ (ensurePoolSafe e enpThr ellThr pool np = Except.ok ()
      ↔ enpThr.margin_call < enp ∧ ellThr.margin_call < ell) := by
  cases np <;>
    (by_cases hc : enp ≤ enpThr.margin_call ∨ ell ≤ ellThr.margin_call
     · have h2 : ¬(enpThr.margin_call < enp ∧ ellThr.margin_call < ell) := by
         rcases hc with hle | hle
         · exact fun hand => absurd hand.1 (not_lt.mpr hle)
         · exact fun hand => absurd hand.2 (not_lt.mpr hle)
       simp [ensurePoolSafe, h, hc, h2]
     · have h2 : enpThr.margin_call < enp ∧ ellThr.margin_call < ell := by
         push_neg at hc
         exact hc
       simp [ensurePoolSafe, h, hc, h2])

/-- Claim C3 witness: the pool gate equivalence instantiated at an empty
pool (both solvency measures are the maximum ratio) against 50% and 1/3
thresholds. -/
theorem claim3_pool_gate_witness :
    (ensurePoolSafe gateEnv ⟨1/2, 0⟩ ⟨1/3, 0⟩ 0 none = Except.error Err.UnsafePool
      ↔ fixed128Max ≤ (1/2 : ℚ) ∨ fixed128Max ≤ (1/3 : ℚ))
    ∧ (ensurePoolSafe gateEnv ⟨1/2, 0⟩ ⟨1/3, 0⟩ 0 none = Except.ok ()
      ↔ (1/2 : ℚ) < fixed128Max ∧ (1/3 : ℚ) < fixed128Max) :=
  claim3_pool_gate gateEnv ⟨1/2, 0⟩ ⟨1/3, 0⟩ 0 none fixed128Max fixed128Max
    (by norm_num [enpAndEll, equityOfPool, plAndRateOfPositions, netPositionAndLongestLeg,
      balanceValue, gateEnv])

/-- Claim C4 counterexample: at the reference scenario the margin level
is 11666586/59698210 ≈ 0.195426 = 19.54%, which is not within half of
the last displayed digit (±0.0005) of the claimed 19.44%. -/
theorem claim4_margin_level_counterexample :
    marginLevel scenarioEnv 0 none = Except.ok ((11666586 : ℚ) / 59698210)
    ∧ ¬ |((11666586 : ℚ) / 59698210) - 1944 / 10000| ≤ 5 / 10000 := by
  constructor
  · norm_num [marginLevel, equityOfTrader, unrealizedPlOfTrader, unrealizedPlOfPositions,
      unrealizedPlOfPosition, closingPrice, pairPrice, accumulatedSwapRateOfTrader,
      accumulatedSwapRateOfPosition, balanceValue, scenarioEnv, eurUsdLong1, eurUsdLong2,
      eurUsdShort1, eurUsdShort2, EUR_USD_PAIR, abs_div]
  · norm_num [abs_le]

/-- Claim C4 (amended): at the reference scenario — trader 0 with
balance 120,000.00 holding the four mixed EUR/USD fixtures at EUR price
1.2 and accumulated index 1 — the trader's equity is exactly 116,665.86
reference-currency units and the margin level with no hypothetical
position is 11666586/59698210 ≈ 19.54% (not 19.44%). -/
theorem claim4_scenario_amended :
    equityOfTrader scenarioEnv 0 = Except.ok ((11666586 : ℚ) / 100)
    ∧ marginLevel scenarioEnv 0 none = Except.ok ((11666586 : ℚ) / 59698210)
    ∧ |((11666586 : ℚ) / 59698210) - 1954 / 10000| ≤ 5 / 10000 := by
  refine ⟨?_, ?_, ?_⟩
  · norm_num [equityOfTrader, unrealizedPlOfTrader, unrealizedPlOfPositions,
      unrealizedPlOfPosition, closingPrice, pairPrice, accumulatedSwapRateOfTrader,
      accumulatedSwapRateOfPosition, balanceValue, scenarioEnv, eurUsdLong1, eurUsdLong2,
      eurUsdShort1, eurUsdShort2, EUR_USD_PAIR, abs_div]
  · norm_num [marginLevel, equityOfTrader, unrealizedPlOfTrader, unrealizedPlOfPositions,
      unrealizedPlOfPosition, closingPrice, pairPrice, accumulatedSwapRateOfTrader,
      accumulatedSwapRateOfPosition, balanceValue, scenarioEnv, eurUsdLong1, eurUsdLong2,
      eurUsdShort1, eurUsdShort2, EUR_USD_PAIR, abs_div]
  · norm_num [abs_le]

/-- Claim C5: at USD/JPY = 110 and EUR/JPY = 140, the EUR/JPY long
fixture's unrealized P&L is -11809/11 ≈ -1073.55 reference-currency
units (within 0.01), and the corresponding short fixture's is exactly
+1471.00. -/
theorem claim5_eur_jpy_scenario :
    unrealizedPlOfPosition jpyEnv eurJpyLong = Except.ok (-(11809 : ℚ) / 11)
    ∧ |(-(11809 : ℚ) / 11) - (-(107355 : ℚ) / 100)| ≤ 1 / 100
    ∧ unrealizedPlOfPosition jpyEnv eurJpyShort = Except.ok ((1471 : ℚ))
    ∧ |((1471 : ℚ)) - 1471| ≤ 1 / 100 := by
  refine ⟨?_, ?_, ?_, ?_⟩
  · norm_num [unrealizedPlOfPosition, closingPrice, pairPrice, jpyEnv, eurJpyLong, EUR_JPY_PAIR,
      abs_div]
  · norm_num [abs_le]
  · norm_num [unrealizedPlOfPosition, closingPrice, pairPrice, jpyEnv, eurJpyShort, EUR_JPY_PAIR,
      abs_div]
  · norm_num

/-- The economically-equivalent opposite-direction position: direction
tag flipped and every signed exposure field negated. -/
def mirrorPosition (p : Position) : Position :=
  { p with
    leverage := { isLong := !p.leverage.isLong, multiplier := p.leverage.multiplier }
    leveraged_held := -p.leveraged_held
    leveraged_debits := -p.leveraged_debits
    leveraged_held_in_usd := -p.leveraged_held_in_usd }

/-- Claim C6: absent spread, the unrealized P&L of the opposite-direction
mirror of any position is exactly the negation of the original's —
opposite sign, equal magnitude — with direction carried purely by the
sign of `leveraged_held`. -/
theorem claim6_long_short_mirror (e : Env) (p : Position) (h : e.spread = 0) :
    unrealizedPlOfPosition e (mirrorPosition p) =
      Except.map (fun x => -x) (unrealizedPlOfPosition e p) := by
  cases hp : pairPrice e p.pair with
  | error err => simp [unrealizedPlOfPosition, closingPrice, mirrorPosition, hp, Except.map]
  | ok mid =>
    cases hb : e.usdPrice p.pair.base with
    | none => simp [unrealizedPlOfPosition, closingPrice, mirrorPosition, hp, hb, Except.map]
    | some bp =>
      simp only [unrealizedPlOfPosition, closingPrice, mirrorPosition, hp, hb, h, Except.map]
      simp only [sub_zero, add_zero, mul_one, ite_self, neg_div_neg_eq, Except.ok.injEq]
      ring

/-- Claim C6 witness: the mirror property at the zero-spread gate
environment and the first EUR/USD long fixture. -/
theorem claim6_long_short_mirror_witness :
    gateEnv.spread = 0
    ∧ unrealizedPlOfPosition gateEnv (mirrorPosition eurUsdLong1) =
        Except.map (fun x => -x) (unrealizedPlOfPosition gateEnv eurUsdLong1) :=
  ⟨rfl, claim6_long_short_mirror gateEnv eurUsdLong1 rfl⟩

/-- Claim C7: a trader with no open positions and a positive balance has
margin level equal to the maximum representable ratio — the zero
denominator is not a division error. -/
theorem claim7_margin_level_no_positions (e : Env) (who : ℕ)
    (h : e.positionsByTrader who = []) (hb : 0 < e.balances who) :
    marginLevel e who none = Except.ok fixed128Max := by
  simp [marginLevel, equityOfTrader, unrealizedPlOfTrader, unrealizedPlOfPositions,
    accumulatedSwapRateOfTrader, h]

/-- Claim C7 witness: the maximum margin level at the gate environment,
whose trader 0 has no positions and balance 10^18 parts. -/
theorem claim7_margin_level_no_positions_witness :
    gateEnv.positionsByTrader 0 = [] ∧ 0 < gateEnv.balances 0
    ∧ marginLevel gateEnv 0 none = Except.ok fixed128Max :=
  ⟨rfl, by norm_num [gateEnv],
    claim7_margin_level_no_positions gateEnv 0 rfl (by norm_num [gateEnv])⟩

/-- Claim C8: free balance equals `max (balance - margin_held) 0` — it
is `balance - margin_held` whenever margin held fits in the balance, is
clamped to zero (not an error) when margin held exceeds the balance, and
is never negative. -/
theorem claim8_free_balance_clamped (e : Env) (who : ℕ) :
    (freeBalance e who : ℤ) = max ((e.balances who : ℤ) - (marginHeld e who : ℤ)) 0 := by
  unfold freeBalance
  omega

/-- Claim C9 counterexample: the first EUR/USD short fixture with
current accumulated index 1 accrues +10.96, while the claimed formula
`(current - open) * leveraged_held` would give -10.96 — so the accrual
is not multiplied by the signed `leveraged_held` and its sign does not
follow the sign of `leveraged_held`. -/
theorem claim9_swap_sign_counterexample :
    accumulatedSwapRateOfPosition scenarioEnv eurUsdShort1 = (1096 : ℚ) / 100
    ∧ (scenarioEnv.accRate eurUsdShort1.pair - eurUsdShort1.open_accumulated_swap_rate) *
        eurUsdShort1.leveraged_held = -((1096 : ℚ) / 100)
    ∧ accumulatedSwapRateOfPosition scenarioEnv eurUsdShort1 ≠
        (scenarioEnv.accRate eurUsdShort1.pair - eurUsdShort1.open_accumulated_swap_rate) *
          eurUsdShort1.leveraged_held := by
  refine ⟨?_, ?_, ?_⟩
  · norm_num [accumulatedSwapRateOfPosition, scenarioEnv, eurUsdShort1, EUR_USD_PAIR]
  · norm_num [scenarioEnv, eurUsdShort1, EUR_USD_PAIR]
  · norm_num [accumulatedSwapRateOfPosition, scenarioEnv, eurUsdShort1, EUR_USD_PAIR]

/-- Claim C9 (amended): for every position, the accrued swap equals the
index delta `(current - open)` multiplied by the absolute value of
`leveraged_held` (so its sign follows the sign of the index delta, not
of `leveraged_held`), and the trader-level accrual is the sum of this
quantity over all the trader's positions. -/
theorem claim9_swap_rate_amended (e : Env) (p : Position) (who : ℕ) :
    accumulatedSwapRateOfPosition e p =
      (e.accRate p.pair - p.open_accumulated_swap_rate) * |p.leveraged_held|
    ∧ accumulatedSwapRateOfTrader e who =
        ((e.positionsByTrader who).map fun q => accumulatedSwapRateOfPosition e q).sum := by
  refine ⟨rfl, ?_⟩
  unfold accumulatedSwapRateOfTrader
  rw [foldl_add_eq_sum, zero_add]

/-- Claim C10: neither safety gate reads the `stop_out` component of any
risk threshold — varying only `stop_out` (for the trader threshold, and
for both pool thresholds) leaves the accept/reject outcome of
`ensure_trader_safe` and `ensure_pool_safe` unchanged. -/
theorem claim10_stop_out_irrelevant (e : Env) (mc so so' emc eso eso' lmc lso lso' : ℚ)
    (who pool : ℕ) (np np2 : Option Position) :
    ensureTraderSafe e ⟨mc, so⟩ who np = ensureTraderSafe e ⟨mc, so'⟩ who np
    ∧ ensurePoolSafe e ⟨emc, eso⟩ ⟨lmc, lso⟩ pool np2 =
        ensurePoolSafe e ⟨emc, eso'⟩ ⟨lmc, lso'⟩ pool np2 :=
  ⟨rfl, rfl⟩
